import Mathlib

/-!
Verification development for the headerlet module of the stwcs repository
(file src/lib/stwcs/wcsutil/headerlet.py).

The Python module is shallowly embedded below.  FITS headers are modelled as
ordered lists of keyword/value cards, datasets as lists of header-data units
(HDUs), and Python exceptions as an explicit error type threaded through
`Except`.  External collaborators that the module calls but whose code is not
part of the sources (the HSTWCS coordinate-solution reader, the altwcs
alternate-key registry, the wcscorr correction-history ledger and the
stsci.tools extension counter) are modelled from the specification; each such
definition carries a doc comment starting with: Modelled from the spec.
Numeric header values and array data are modelled as rationals; numpy
allclose is modelled with its documented tolerance formula.
-/

/-- Python exceptions raised by the module, with enough payload to tell the
different raise sites apart.  `keyError k` is a dictionary-style lookup
failure for keyword `k`; `extKeyError n v` is a pyfits lookup failure for
extension `(n, v)`; `nameError x` is an unbound local variable `x`. -/
inductive PyErr where
  | keyError : String → PyErr
  | extKeyError : String → Nat → PyErr
  | indexError : PyErr
  | valueError : String → PyErr
  | nameError : String → PyErr
  | assertionError : PyErr
  | attributeError : String → PyErr
  | typeError : PyErr
deriving DecidableEq

deriving instance DecidableEq for Except

/-- A FITS header value: string, number (rationals model both ints and
floats) or boolean. -/
inductive FV where
  | s : String → FV
  | n : Rat → FV
  | b : Bool → FV
deriving DecidableEq

/-- A header card.  Card comments are not modelled; no code path of the
module depends on them. -/
structure Card where
  key : String
  value : FV
deriving DecidableEq

/-- A FITS header: an ordered card list (insertion order is significant). -/
abbrev Header := List Card

/-- Value of the first card with the given keyword, like `header[key]`. -/
def hfind (h : Header) (k : String) : Option FV :=
  (h.find? (fun c => c.key == k)).map (fun c => c.value)

/-- The first card with the given keyword, like `header.ascard[key]`. -/
def hfindCard (h : Header) (k : String) : Option Card :=
  h.find? (fun c => c.key == k)

/-- Delete the first card with the given keyword; a missing keyword is a
silent no-op (the module always wraps `del` in try/except KeyError pass
where this helper is used). -/
def delKey (h : Header) (k : String) : Header :=
  match h.findIdx? (fun c => c.key == k) with
  | some i => h.eraseIdx i
  | none => h

/-- Insert an element at a fixed position, like Python `list.insert`. -/
def insAt (n : Nat) (a : α) (l : List α) : List α :=
  l.take n ++ a :: l.drop n

/-- `header.update(key, value)`: replace the value of an existing card in
place, else append a new card. -/
def headerUpdate (h : Header) (k : String) (v : FV) : Header :=
  match h.findIdx? (fun c => c.key == k) with
  | some i =>
    match h.get? i with
    | some c => h.set i ⟨c.key, v⟩
    | none => h
  | none => h ++ [⟨k, v⟩]

/-- The card with keyword `k` as a singleton list, or nothing: the
`try: h.append(fhdr[k]) except KeyError: pass` idiom. -/
def optCard (h : Header) (k : String) : List Card :=
  match hfindCard h k with
  | some c => [c]
  | none => []

/-- Modelled from the spec: the coordinate solution that the external HSTWCS
class (module hstwcs, not part of the sources) derives from one image
extension.  Components follow section 3 of the spec: linear terms, optional
polynomial (SIP) distortion as a forward coefficient pair, optional
lookup-table distortion arrays (one per axis), optional detector-to-image
correction arrays (one per axis) and the velocity-aberration factor
(default 1.0).  Array data is modelled as flat rational lists. -/
structure WCSData where
  crval : List Rat
  crpix : List Rat
  cd : List Rat
  ctype : List String
  sip : Option (List Rat × List Rat)
  cpdis1 : Option (List Rat)
  cpdis2 : Option (List Rat)
  det2im1 : Option (List Rat)
  det2im2 : Option (List Rat)
  vafactor : Rat
deriving DecidableEq

/-- The no-solution placeholder used for constructed bookkeeping HDUs. -/
def emptyWCS : WCSData :=
  { crval := [], crpix := [], cd := [], ctype := [], sip := none,
    cpdis1 := none, cpdis2 := none, det2im1 := none, det2im2 := none,
    vafactor := 1 }

/-- A header-data unit.  `header` and `data` are the stored file content.
The remaining fields are oracles for external collaborators whose code is
not part of the sources: `wcs` is the coordinate solution HSTWCS would
build from this extension, `wcsCards` the card block
`wcs2header(sip2hdr=True)` would serialize for the primary solution,
`altKeys` the alternate-solution keys the altwcs registry reports for this
header, and `altCards` the serialized block
`wcs2header(idc2hdr=False)` for each alternate key. -/
structure HDU where
  header : Header
  data : List Rat
  wcs : WCSData
  wcsCards : List Card
  altKeys : List String
  altCards : List (String × List Card)
deriving DecidableEq

/-- A dataset: an ordered HDU list whose head is the primary HDU. -/
structure Dataset where
  hdus : List HDU
deriving DecidableEq

/-- pyfits extension lookup `fobj[(name, ver)]`: the first HDU whose header
carries the matching EXTNAME and EXTVER. -/
def lookupExt (d : Dataset) (name : String) (ver : Nat) : Option HDU :=
  d.hdus.find? (fun h =>
    hfind h.header "EXTNAME" == some (.s name) &&
    hfind h.header "EXTVER" == some (.n ver))

/-- Modelled from the spec: stsci.tools.fileutil.countExtn (third-party),
counting the extensions whose type-name equals the given name. -/
def countExtn (d : Dataset) (name : String) : Nat :=
  d.hdus.countP (fun h => hfind h.header "EXTNAME" == some (.s name))

/-- Option-to-Except coercion standing for a raising Python lookup. -/
def req : Option α → PyErr → Except PyErr α
  | some a, _ => .ok a
  | none, e => .error e

/-- `getRootname`: the value of ROOTNAME, else DESTIM, of the primary
header; both missing propagates the DESTIM KeyError (lines 346-355). -/
def getRootname (f : Dataset) : Except PyErr FV :=
  match f.hdus.head?.bind (fun h => hfind h.header "ROOTNAME") with
  | some v => .ok v
  | none =>
    match f.hdus.head?.bind (fun h => hfind h.header "DESTIM") with
    | some v => .ok v
    | none => .error (.keyError "DESTIM")

/-- The numpy allclose element bound `|a - b| <= atol + rtol * |b|`,
evaluated by integer cross-multiplication over numerators and denominators
so that concrete instances reduce inside the kernel; the theorem tolOk_iff
below proves this equal to the rational-arithmetic formula. -/
def tolOk (a b rtol atol : Rat) : Bool :=
  let ad : Int := a.den
  let bd : Int := b.den
  let rd : Int := rtol.den
  let td : Int := atol.den
  let lhs : Int := ((a.num * bd - b.num * ad).natAbs : Int) * (td * (rd * bd))
  let rhs : Int := (atol.num * (rd * bd) + rtol.num * ((b.num.natAbs : Int) * td)) * (ad * bd)
  decide (lhs ≤ rhs)

/-- numpy allclose: matching shapes and every pair within the tolerance
bound.  Shape mismatch is modelled as a failed comparison. -/
def allclose (a b : List Rat) (rtol atol : Rat) : Bool :=
  a.length == b.length &&
  (a.zip b).all (fun p => tolOk p.1 p.2 rtol atol)

/-- The relative tolerance 1e-7 passed explicitly in isWCSIdentical. -/
def rtol7 : Rat := mkRat 1 10000000

/-- numpy default relative tolerance 1e-5, used where isWCSIdentical calls
allclose without an explicit rtol (lookup-table and detector-to-image
array data). -/
def rtol5 : Rat := mkRat 1 100000

/-- numpy default absolute tolerance 1e-8 (never overridden here). -/
def atol8 : Rat := mkRat 1 100000000

/-- The presence/absence plus value check isWCSIdentical applies to one
optional component: nothing to check when both sides lack it, a mismatch
when exactly one side has it, the value check when both have it. -/
def optOk (f : α → α → Bool) : Option α → Option α → Bool
  | none, none => true
  | some _, none => false
  | none, some _ => false
  | some a, some b => f a b

/-- The per-extension body of isWCSIdentical (lines 89-127): linear terms at
rtol 1e-7, coordinate types exactly, SIP coefficient pairs at rtol 1e-7,
lookup-table and detector-to-image arrays at numpy default tolerances, and
the velocity-aberration factor exactly. -/
def extCompare (w1 w2 : WCSData) : Bool :=
  (allclose w1.crval w2.crval rtol7 atol8 &&
   allclose w1.crpix w2.crpix rtol7 atol8 &&
   allclose w1.cd w2.cd rtol7 atol8 &&
   decide (w1.ctype = w2.ctype)) &&
  optOk (fun p q => allclose p.1 q.1 rtol7 atol8 && allclose p.2 q.2 rtol7 atol8)
    w1.sip w2.sip &&
  optOk (fun a b => allclose a b rtol5 atol8) w1.cpdis1 w2.cpdis1 &&
  optOk (fun a b => allclose a b rtol5 atol8) w1.cpdis2 w2.cpdis2 &&
  optOk (fun a b => allclose a b rtol5 atol8) w1.det2im1 w2.det2im1 &&
  optOk (fun a b => allclose a b rtol5 atol8) w1.det2im2 w2.det2im2 &&
  decide (w1.vafactor = w2.vafactor)

/-- The science-extension count isWCSIdentical uses for one file:
`max(countExtn(f), countExtn(f, SIPWCS))` (lines 67-68). -/
def numsciOf (f : Dataset) : Nat :=
  max (countExtn f "SCI") (countExtn f "SIPWCS")

/-- The extension type-name isWCSIdentical iterates over for one file:
the EXTNAME of extension (SCI, 1) when that lookup succeeds, else the
SIPWCS fallback of the except branch (lines 77-84). -/
def extnameOf (f : Dataset) : String :=
  if (lookupExt f "SCI" 1).isSome then "SCI" else "SIPWCS"

/-- Modelled from the spec: constructing HSTWCS on extension (name, ver)
reads that extension and derives its coordinate solution; a missing
extension raises the pyfits lookup error. -/
def getWCS (f : Dataset) (name : String) (ver : Nat) : Except PyErr WCSData :=
  match lookupExt f name ver with
  | some h => .ok h.wcs
  | none => .error (.extKeyError name ver)

/-- Explicit-recursion mapM over Except, used so that the embedding has
easy unfolding equations. -/
def exMapM (g : α → Except PyErr β) : List α → Except PyErr (List β)
  | [] => .ok []
  | a :: l => do
    let b ← g a
    let bs ← exMapM g l
    pure (b :: bs)

/-- Explicit-recursion foldlM over Except. -/
def exFoldl (g : β → α → Except PyErr β) : β → List α → Except PyErr β
  | b, [] => .ok b
  | b, a :: l => do
    let b2 ← g b a
    exFoldl g b2 l

/-- One iteration of the comparison loop of isWCSIdentical (lines 86-127):
read both coordinate solutions (raising when an extension is missing) and
conjoin the per-extension criteria onto the accumulated result. -/
def cmpStep (f1 f2 : Dataset) (n1 n2 : String) (res : Bool) (i : Nat) :
    Except PyErr Bool := do
  let w1 ← getWCS f1 n1 i
  let w2 ← getWCS f2 n2 i
  pure (res && extCompare w1 w2)

/-- isWCSIdentical (lines 33-129): accumulate the count check, the
root-identity check and every per-extension check without short-circuiting;
the loop runs over the first file's extension count. -/
def isWCSIdentical (f1 f2 : Dataset) : Except PyErr Bool := do
  let numsci1 := numsciOf f1
  let numsci2 := numsciOf f2
  let countsOk := !(numsci1 == 0 || numsci2 == 0 || numsci1 != numsci2)
  let r1 ← getRootname f1
  let r2 ← getRootname f2
  let acc := countsOk && decide (r1 = r2)
  exFoldl (cmpStep f1 f2 (extnameOf f1) (extnameOf f2)) acc
    (List.range' 1 numsci1)

/-- Modelled from the spec: altwcs.wcskeys (module altwcs, not part of the
sources) enumerates the alternate-solution keys present on a header; each
present key is reported once.  Modelled on the per-extension oracle field. -/
def wcskeys (h : HDU) : List String :=
  h.altKeys.dedup

/-- The alternate-key list createHeaderlet extracts for every science
extension (lines 193-196): the keys present on extension (SCI, 1) with key
O removed before any per-extension extraction. -/
def usedAltKeys (h : HDU) : List String :=
  (wcskeys h).erase "O"

/-- The serialized card block of alternate solution `ak` of a science
extension: `HSTWCS(fname, ext, wcskey=ak).wcs2header(idc2hdr=False)`,
read from the oracle field. -/
def altCardsFor (sci : HDU) (ak : String) : List Card :=
  match sci.altCards.find? (fun p => p.1 == ak) with
  | some p => p.2
  | none => []

/-- updateRefFiles (lines 317-344): insert the source's IDCTAB, NPOLFILE and
D2IMFILE cards into the destination header before its HISTORY card (at its
end when HISTORY is absent) and report which of the three were present.
Python 2 iterates the phdukw dict in an implementation-defined order; the
fixed order IDCTAB, NPOLFILE, D2IMFILE is used here.  Each insertion reuses
the same index, exactly as the source does. -/
def updateRefFiles (source dest : Header) : Header × Bool × Bool × Bool :=
  let wind := (dest.findIdx? (fun c => c.key == "HISTORY")).getD dest.length
  let step := fun (h : Header) (key : String) =>
    match hfindCard source key with
    | some c => (insAt wind c h, true)
    | none => (h, false)
  let (h1, b1) := step dest "IDCTAB"
  let (h2, b2) := step h1 "NPOLFILE"
  let (h3, b3) := step h2 "D2IMFILE"
  (h3, b1, b2, b3)

/-- Destination-identity resolution of createHeaderlet (lines 173-179): an
explicit destim argument wins; otherwise the primary ROOTNAME keyword, whose
absence re-raises the KeyError.  The DESTIM keyword of the source is never
consulted. -/
def resolveDestim (h0 : HDU) (destim : Option String) : Except PyErr FV :=
  match destim with
  | some d => .ok (.s d)
  | none =>
    match hfind h0.header "ROOTNAME" with
    | some v => .ok v
    | none => .error (.keyError "ROOTNAME")

/-- The primary header createHeaderlet builds (lines 201-216): DESTIM,
HDRNAME, DATE, the STWCSVER card of the source (a blank placeholder card
when absent), the reference-file cards copied by updateRefFiles, and the
VAFACTOR of extension (SCI, 1) with default 1.  Also returns the three
reference-file presence flags. -/
def buildPrimaryHeader (h0 sci1 : HDU) (destimVal : FV) (hn now : String) :
    Header × Bool × Bool × Bool :=
  let upwcsver := (hfindCard h0.header "STWCSVER").getD ⟨"STWCSVER", .s " "⟩
  let cards0 : Header :=
    [⟨"DESTIM", destimVal⟩, ⟨"HDRNAME", .s hn⟩, ⟨"DATE", .s now⟩, upwcsver]
  let (cards1, b1, b2, b3) := updateRefFiles h0.header cards0
  let vaf := (hfind sci1.header "VAFACTOR").getD (.n 1)
  (headerUpdate cards1 "VAFACTOR" vaf, b1, b2, b3)

/-- The head of the SIPWCS header built for science extension `e`
(lines 218-229): the serialized primary solution, the serialized block of
every enumerated alternate key in order, the per-extension VAFACTOR card,
with EXTNAME and EXTVER inserted at the front. -/
def sipwcsBase (sci : HDU) (altkeys : List String) (e : Nat) : Header :=
  ⟨"EXTNAME", .s "SIPWCS"⟩ :: ⟨"EXTVER", .n e⟩ ::
    (sci.wcsCards ++ (altkeys.map (altCardsFor sci)).flatten ++
      [⟨"VAFACTOR", .n sci.wcs.vafactor⟩])

/-- One lookup-table block of the copy loop (lines 233-242): the c-th CPDIS
card, the record-valued DP cards of axis c, and the optional CPERROR card. -/
def npolItem (fhdr : Header) (ic : Nat × Card) : List Card :=
  [ic.2] ++
  fhdr.filter (fun c => c.key.startsWith ("DP" ++ toString (ic.1 + 1) ++ ".")) ++
  optCard fhdr ("CPERROR" ++ toString (ic.1 + 1))

/-- The lookup-table distortion cards copied into a SIPWCS header when the
source primary carries NPOLFILE (lines 232-247): per CPDIS axis its block,
then the optional NPOLEXT card.  The source appends these to the header
being built; appending the collected block is equivalent. -/
def npolCards (fhdr : Header) : List Card :=
  let cpdis := fhdr.filter (fun c => c.key.startsWith "CPDIS")
  (cpdis.enum.foldl (fun acc ic => acc ++ npolItem fhdr ic) []) ++
    optCard fhdr "NPOLEXT"

/-- The detector-to-image correction cards copied into a SIPWCS header when
the source primary carries D2IMFILE (lines 249-266): the optional D2IMEXT
card, then AXISCORR whose absence re-raises the KeyError regardless of
whether D2IMEXT was present, then D2IMERR or a default DPERROR card. -/
def d2imCards (fhdr : Header) : Except PyErr (List Card) :=
  match hfindCard fhdr "AXISCORR" with
  | some c =>
    .ok (optCard fhdr "D2IMEXT" ++ [c] ++
      (match hfindCard fhdr "D2IMERR" with
       | some c2 => [c2]
       | none => [⟨"DPERROR", .n 0⟩]))
  | none => .error (.keyError "AXISCORR")

/-- The SIPWCS HDU built for science extension `e` (loop body, lines
218-269).  The oracle fields of the new HDU record the solution its header
serializes, mirroring what HSTWCS would re-derive from it. -/
def mkSipwcsHDU (f : Dataset) (altkeys : List String) (npolkw d2imkw : Bool)
    (e : Nat) : Except PyErr HDU := do
  let sci ← req (lookupExt f "SCI" e) (.extKeyError "SCI" e)
  let base := sipwcsBase sci altkeys e
  let h4 := if npolkw then base ++ npolCards sci.header else base
  let h5 ← if d2imkw then (d2imCards sci.header).map (fun t => h4 ++ t)
           else pure h4
  pure { header := h5, data := [], wcs := sci.wcs, wcsCards := sci.wcsCards,
         altKeys := altkeys,
         altCards := sci.altCards.filter (fun p => altkeys.contains p.1) }

/-- The Headerlet class (line 378): the HDU list of the underlying file plus
the attributes read eagerly by the constructor. -/
structure Headerlet where
  hdus : List HDU
  hdrname : FV
  stwcsver : FV
  destim : FV
  idctab : FV
  npolfile : FV
  d2imfile : FV
  vafactor : FV
deriving DecidableEq

/-- The Headerlet constructor (lines 384-422): HDRNAME and DESTIM of the
primary header are mandatory (KeyError when absent, HDRNAME first),
STWCSVER / IDCTAB / NPOLFILE / D2IMFILE default to blank, and VAFACTOR is
read from extension index 1 with default 1 (IndexError when the list has
fewer than two HDUs). -/
def Headerlet.init (d : Dataset) : Except PyErr Headerlet := do
  let h0 ← req d.hdus.head? .indexError
  let hdrname ← req (hfind h0.header "HDRNAME") (.keyError "HDRNAME")
  let stwcsver := (hfind h0.header "STWCSVER").getD (.s "")
  let destim ← req (hfind h0.header "DESTIM") (.keyError "DESTIM")
  let idctab := (hfind h0.header "IDCTAB").getD (.s "")
  let npolfile := (hfind h0.header "NPOLFILE").getD (.s "")
  let d2imfile := (hfind h0.header "D2IMFILE").getD (.s "")
  let h1 ← req (d.hdus.get? 1) .indexError
  let vafactor := (hfind h1.header "VAFACTOR").getD (.n 1)
  pure ⟨d.hdus, hdrname, stwcsver, destim, idctab, npolfile, d2imfile, vafactor⟩

/-- The tail of createHeaderlet after identity and name validation (lines
185-285): enumerate the alternate keys of (SCI, 1), build the primary HDU,
one SIPWCS HDU per science extension, then append every WCSDVARR extension
fetched by version 1..count followed by every D2IMARR extension fetched by
version 1..count, and run the Headerlet constructor on the result.  The
optional output-file write is I/O only and does not affect the returned
object. -/
def createHeaderletRest (f : Dataset) (h0 : HDU) (destimVal : FV)
    (hn now : String) : Except PyErr Headerlet := do
  let sci1 ← req (lookupExt f "SCI" 1) (.extKeyError "SCI" 1)
  let altkeys := usedAltKeys sci1
  let numsci := countExtn f "SCI"
  let (pcards, _b1, npolkw, d2imkw) := buildPrimaryHeader h0 sci1 destimVal hn now
  let phdu : HDU := { header := pcards, data := [], wcs := emptyWCS,
                      wcsCards := [], altKeys := [], altCards := [] }
  let scis ← exMapM (mkSipwcsHDU f altkeys npolkw d2imkw) (List.range' 1 numsci)
  let nw := countExtn f "WCSDVARR"
  let nd := countExtn f "D2IMARR"
  let wds ← exMapM (fun w => req (lookupExt f "WCSDVARR" w) (.extKeyError "WCSDVARR" w))
    (List.range' 1 nw)
  let d2s ← exMapM (fun w => req (lookupExt f "D2IMARR" w) (.extKeyError "D2IMARR" w))
    (List.range' 1 nd)
  Headerlet.init ⟨phdu :: (scis ++ (wds ++ d2s))⟩

/-- createHeaderlet (lines 134-285).  The destination identity is resolved
before the name check, exactly as in the source; a `none` name raises the
ValueError of lines 180-183 while an empty string passes the
`hdrname is None` test. -/
def createHeaderlet (f : Dataset) (hdrname : Option String)
    (destim : Option String) (now : String) : Except PyErr Headerlet := do
  let h0 ← req f.hdus.head? .indexError
  let destimVal ← resolveDestim h0 destim
  let hn ← match hdrname with
    | some s => pure s
    | none => throw (.valueError
        "Please provide a name for the headerlet, HDRNAME is a required parameter.")
  createHeaderletRest f h0 destimVal hn now

/-- Python `s.strip()` truthiness: true exactly when some character is not
whitespace, that is when the stripped string is nonempty. -/
def pyStripTruthy (s : String) : Bool :=
  s.data.any (fun c => !c.isWhitespace)

/-- The truthiness test `key in header and header[key].strip()` used by
hverify: absent or blank-string values are falsy (assertion failure);
calling strip on a non-string value raises AttributeError. -/
def assertTruthyStrip : Option FV → Except PyErr Unit
  | none => .error .assertionError
  | some (.s v) => if pyStripTruthy v then .ok () else .error .assertionError
  | some (.n _) => .error (.attributeError "strip")
  | some (.b _) => .error (.attributeError "strip")

/-- Headerlet.hverify (lines 538-543): the generic pyfits structural
verification never rejects the in-memory headers modelled here, so only
the three assertions remain: non-blank DESTIM, non-blank HDRNAME, and the
presence of STWCSVER. -/
def hverify (hl : Headerlet) : Except PyErr Unit := do
  let h0 ← req hl.hdus.head? .indexError
  let _ ← assertTruthyStrip (hfind h0.header "DESTIM")
  let _ ← assertTruthyStrip (hfind h0.header "HDRNAME")
  if (hfind h0.header "STWCSVER").isSome then pure ()
  else throw .assertionError

/-- Headerlet.verify_dest (lines 546-567) for a destination passed as a
file name: the destination's ROOTNAME, or on KeyError the file-name stem
before the .fits suffix, must equal the headerlet's DESTIM. -/
def verify_dest (self : Headerlet) (destName : String) (dest : Dataset) : Bool :=
  let droot : FV :=
    match dest.hdus.head?.bind (fun h => hfind h.header "ROOTNAME") with
    | some v => v
    | none => .s ((destName.splitOn ".fits").headD "")
  decide (droot = self.destim)

/-- A numeric header value as a natural number, for keywords such as NAXIS
and the SIP order keywords that Python treats as ints. -/
def fvToNat : FV → Option Nat
  | .n q => if q.den = 1 ∧ 0 ≤ q.num then some q.num.toNat else none
  | _ => none

/-- Headerlet._removeSIP (lines 616-639): for each coefficient prefix whose
ORDER keyword is present, delete the ORDER keyword and every coefficient
keyword up to that order, then delete IDCTAB.  A prefix with no ORDER
keyword is skipped. -/
def removeSIP (h : Header) : Header :=
  let h1 := ["A", "B", "AP", "BP"].foldl (fun acc p =>
    match (hfind acc (p ++ "_ORDER")).bind fvToNat with
    | some order =>
      let acc1 := delKey acc (p ++ "_ORDER")
      (List.range (order + 1)).foldl (fun a i =>
        (List.range (order + 1)).foldl (fun a2 j =>
          delKey a2 (p ++ "_" ++ toString i ++ "_" ++ toString j)) a) acc1
    | none => acc) h
  delKey h1 "IDCTAB"

/-- Delete every card whose keyword starts with the given stem, raising
(None result) when no card matches: the semantics of deleting a pyfits
wildcard pattern. -/
def delPatTry (h : Header) (p : String) : Option Header :=
  if h.any (fun c => c.key.startsWith p) then
    some (h.filter (fun c => !(c.key.startsWith p)))
  else none

/-- Delete the first card with the given keyword, raising (None result)
when absent. -/
def delKeyTry (h : Header) (k : String) : Option Header :=
  match h.findIdx? (fun c => c.key == k) with
  | some i => some (h.eraseIdx i)
  | none => none

/-- One step of a Python try block built from deletions: once a step has
raised, the remaining steps are skipped but the deletions already performed
are kept (the header is mutated in place). -/
def tryDel (st : Header × Bool) (f : Header → Option Header) : Header × Bool :=
  match st with
  | (h, true) => (h, true)
  | (h, false) =>
    match f h with
    | some h2 => (h2, false)
    | none => (h, true)

/-- Headerlet._removeLUT (lines 641-660): nothing to do when no CPDIS card
is present; otherwise a single try block deletes, per axis, the DP record
cards then the CPDIS card, and finally the CPERR cards, NPOLFILE and
NPOLEXT — the first missing key aborts the remaining deletions silently. -/
def removeLUT (h : Header) : Header :=
  let cpdis := h.filter (fun c => c.key.startsWith "CPDIS")
  if cpdis.isEmpty then h
  else
    let st1 := cpdis.enum.foldl (fun st ic =>
      tryDel (tryDel st (fun hh => delPatTry hh ("DP" ++ toString (ic.1 + 1) ++ ".")))
        (fun hh => delKeyTry hh ic.2.key)) (h, false)
    let st2 := tryDel st1 (fun hh => delPatTry hh "CPERR")
    let st3 := tryDel st2 (fun hh => delKeyTry hh "NPOLFILE")
    (tryDel st3 (fun hh => delKeyTry hh "NPOLEXT")).1

/-- Headerlet._removeD2IM (lines 662-674): best-effort deletion of the four
detector-to-image keywords. -/
def removeD2IM (h : Header) : Header :=
  ["D2IMFILE", "AXISCORR", "D2IMEXT", "D2IMERR"].foldl delKey h

/-- Modelled from the spec: the basic_wcs keyword-stem list of the mappings
module (not part of the sources): the per-axis primary-WCS keywords. -/
def basic_wcs : List String :=
  ["CD1_", "CD2_", "CRVAL", "CTYPE", "CRPIX", "CDELT", "CUNIT", "PC1_", "PC2_"]

/-- Headerlet._removePrimaryWCS (lines 687-704): read NAXIS (KeyError when
absent), delete every per-axis keyword of each basic stem up to NAXIS, then
delete WCSAXES. -/
def removePrimaryWCS (h : Header) : Except PyErr Header := do
  let nv ← req (hfind h "NAXIS") (.keyError "NAXIS")
  let naxis := (fvToNat nv).getD 0
  let h1 := basic_wcs.foldl (fun acc key =>
    (List.range' 1 naxis).foldl (fun a i => delKey a (key ++ toString i)) acc) h
  pure (delKey h1 "WCSAXES")

/-- Headerlet._removeIDCCoeffs (lines 706-718): best-effort deletion of the
five coefficient keywords. -/
def removeIDCCoeffs (h : Header) : Header :=
  ["OCX10", "OCX11", "OCY10", "OCY11", "IDCSCALE"].foldl delKey h

/-- Headerlet._removeRefFiles (lines 605-614): best-effort deletion of the
three reference-file keywords from the primary header. -/
def removeRefFiles (h : Header) : Header :=
  ["IDCTAB", "NPOLFILE", "D2IMFILE"].foldl delKey h

/-- Modelled from the spec: altwcs.deleteWCS removes the stored alternate
solution with the given key from every extension; the solution with key O
is never deleted.  Modelled on the per-extension alternate-solution oracle
fields. -/
def deleteWCSKey (d : Dataset) (k : String) : Dataset :=
  if k = "O" then d
  else
    ⟨d.hdus.map (fun h =>
      { h with altKeys := h.altKeys.filter (fun a => !(a == k)),
               altCards := h.altCards.filter (fun p => !(p.1 == k)) })⟩

/-- Headerlet._removeAltWCS (lines 676-685): enumerate the alternate keys of
the destination's (SCI, 1) extension (raising when it is missing) and delete
each from every extension. -/
def removeAltWCS (d : Dataset) : Except PyErr Dataset := do
  let sci1 ← req (lookupExt d "SCI" 1) (.extKeyError "SCI" 1)
  pure ((wcskeys sci1).foldl deleteWCSKey d)

/-- The per-extension stripping of _delDestWCS (lines 582-594), applied only
to IMAGE extensions, in the fixed source order: detector-to-image, SIP,
lookup-table, primary axes, coefficient set, VAFACTOR. -/
def stripImageExt (h : HDU) : Except PyErr HDU :=
  if hfind h.header "XTENSION" == some (.s "IMAGE") then do
    let h1 := removeD2IM h.header
    let h2 := removeSIP h1
    let h3 := removeLUT h2
    let h4 ← removePrimaryWCS h3
    let h5 := removeIDCCoeffs h4
    pure { h with header := delKey h5 "VAFACTOR" }
  else pure h

/-- Delete the extension (name, ver) from a dataset, raising when absent:
`del dest[(name, idx)]`. -/
def delExt (d : Dataset) (name : String) (ver : Nat) : Except PyErr Dataset :=
  match d.hdus.findIdx? (fun h =>
      hfind h.header "EXTNAME" == some (.s name) &&
      hfind h.header "EXTVER" == some (.n ver)) with
  | some i => .ok ⟨d.hdus.eraseIdx i⟩
  | none => .error (.extKeyError name ver)

/-- Headerlet._delDestWCS (lines 574-603): strip every IMAGE extension,
remove the reference files from the primary header, remove the alternate
solutions, and delete every WCSDVARR and D2IMARR extension by version. -/
def delDestWCS (dest : Dataset) : Except PyErr Dataset := do
  let hdus1 ← exMapM stripImageExt dest.hdus
  match hdus1 with
  | [] => .error .indexError
  | h0 :: rest => do
    let d1 : Dataset := ⟨{ h0 with header := removeRefFiles h0.header } :: rest⟩
    let d2 ← removeAltWCS d1
    let nw := countExtn d2 "WCSDVARR"
    let nd := countExtn d2 "D2IMARR"
    let d3 ← exFoldl (fun acc i => delExt acc "WCSDVARR" i) d2 (List.range' 1 nw)
    exFoldl (fun acc i => delExt acc "D2IMARR" i) d3 (List.range' 1 nd)

/-- One member of the tar archive embedded in a HeaderletHDU: the archived
file name and the serialized headerlet it holds (serialization is modelled
by the HDU list itself). -/
structure TarMember where
  name : String
  content : List HDU
deriving DecidableEq

/-- The HeaderletHDU class (line 721): the extension header plus the tar
members of its payload.  The COMPRESS field of the header only selects the
archive mode and does not change the member list, so compression is not
modelled separately. -/
structure HeaderletHDU where
  header : Header
  members : List TarMember
deriving DecidableEq

/-- update_ext_version: set the EXTVER of the extension header. -/
def hhSetExtVer (h : HeaderletHDU) (v : Nat) : HeaderletHDU :=
  { h with header := headerUpdate h.header "EXTVER" (.n v) }

/-- An attached HeaderletHDU as seen inside a destination dataset: its
header cards; the archive payload bytes are opaque there. -/
def hhToHDU (h : HeaderletHDU) : HDU :=
  { header := h.header, data := [], wcs := emptyWCS, wcsCards := [],
    altKeys := [], altCards := [] }

/-- HeaderletHDU.fromheaderlet (lines 777-841): archive the serialized
headerlet as the single member named after HDRNAME, and build the fixed
extension header: the structural cards, the HDRNAME and DATE cards of the
headerlet's primary header, the SIPNAME read from WCSNAMEA of (SIPWCS, 1),
the NPOLFILE and D2IMFILE cards, and the COMPRESS flag.  The NAXIS1 card
records the archive byte length, which is not modelled. -/
def fromheaderlet (hl : Headerlet) (compress : Bool) :
    Except PyErr HeaderletHDU := do
  let phdu ← req hl.hdus.head? .indexError
  let hdrnameCard ← req (hfindCard phdu.header "HDRNAME") (.keyError "HDRNAME")
  let hltFilename ← match hdrnameCard.value with
    | .s v => pure (v ++ "_hdr.fits")
    | _ => throw .typeError
  let dateCard ← req (hfindCard phdu.header "DATE") (.keyError "DATE")
  let sip1 ← req (lookupExt ⟨hl.hdus⟩ "SIPWCS" 1) (.extKeyError "SIPWCS" 1)
  let sipname ← req (hfind sip1.header "WCSNAMEA") (.keyError "WCSNAMEA")
  let npolCard ← req (hfindCard phdu.header "NPOLFILE") (.keyError "NPOLFILE")
  let d2imCard ← req (hfindCard phdu.header "D2IMFILE") (.keyError "D2IMFILE")
  let cards : Header :=
    [⟨"XTENSION", .s "HDRLET"⟩, ⟨"BITPIX", .n 8⟩, ⟨"NAXIS", .n 1⟩,
     ⟨"NAXIS1", .n 0⟩, ⟨"PCOUNT", .n 0⟩, ⟨"GCOUNT", .n 1⟩,
     ⟨"EXTNAME", .s "HDRLET"⟩, hdrnameCard, dateCard,
     ⟨"SIPNAME", sipname⟩, npolCard, d2imCard, ⟨"COMPRESS", .b compress⟩]
  pure ⟨cards, [⟨hltFilename, hl.hdus⟩]⟩

/-- HeaderletHDU.headerlet (lines 744-775): an empty archive raises the
ValueError; more than one member only emits a warning; the member named
after HDRNAME is used when present (tarfile reports the last occurrence),
else the first member with a warning; the chosen member is deserialized
through the Headerlet constructor.  The returned list collects the warning
messages. -/
def HeaderletHDU.headerlet (h : HeaderletHDU) :
    Except PyErr (List String × Headerlet) := do
  match h.members with
  | [] => throw (.valueError "The Headerlet contents are missing.")
  | m0 :: rest =>
    let w1 : List String :=
      if rest.isEmpty then []
      else ["More than one file is contained in this only the headerlet file should be present."]
    let hdrnameV ← req (hfind h.header "HDRNAME") (.keyError "HDRNAME")
    let nm ← match hdrnameV with
      | .s v => pure (v ++ "_hdr.fits")
      | _ => throw .typeError
    let sel := (m0 :: rest).reverse.find? (fun m => m.name == nm)
    let (hltInfo, w2) :=
      match sel with
      | some m => (m, ([] : List String))
      | none => (m0,
        ["The file " ++ nm ++ " was missing from the HDU data.  Assuming that the first file in the data is headerlet file."])
    let hl ← Headerlet.init ⟨hltInfo.content⟩
    pure (w1 ++ w2, hl)

/-- Whether the dataset has an extension with the given EXTNAME, the
`fobj[name]` lookup by name alone. -/
def hasExtName (d : Dataset) (name : String) : Bool :=
  d.hdus.any (fun h => hfind h.header "EXTNAME" == some (.s name))

/-- A placeholder ledger extension. -/
def wcscorrHDU : HDU :=
  { header := [⟨"EXTNAME", .s "WCSCORR"⟩], data := [], wcs := emptyWCS,
    wcsCards := [], altKeys := [], altCards := [] }

/-- Modelled from the spec: wcscorr.init_wcscorr (module wcscorr, not part
of the sources) initializes the correction-history ledger as a new table
extension appended to the dataset. -/
def init_wcscorr (d : Dataset) : Dataset :=
  ⟨d.hdus ++ [wcscorrHDU]⟩

/-- Modelled from the spec: wcscorr.update_wcscorr records the newly
installed solutions as rows of the correction-history ledger; the row
contents live inside the ledger table and are opaque to the extension
structure modelled here. -/
def update_wcscorr (d : Dataset) (_hl : Headerlet) : Dataset := d

/-- The default rollback name of apply (line 474): the destination's
ROOTNAME suffixed with _orig; a destination without ROOTNAME raises the
KeyError, a non-string ROOTNAME fails the concatenation. -/
def defaultOrigName (fobj : Dataset) : Except PyErr String := do
  let h0 ← req fobj.hdus.head? .indexError
  match hfind h0.header "ROOTNAME" with
  | some (.s r) => pure (r ++ "_orig")
  | some _ => throw .typeError
  | none => throw (.keyError "ROOTNAME")

/-- The structural and bookkeeping keywords excluded from the SIPWCS copy
loop (lines 499-501). -/
def excludedKeys : List String :=
  ["XTENSION", "BITPIX", "NAXIS", "PCOUNT", "GCOUNT", "EXTNAME", "EXTVER",
   "ORIGIN", "INHERIT", "DATE", "IRAF-TLM"]

/-- The keyword copy of one SIPWCS extension into the matching science
header (lines 486-504): the insertion point is the index of PA_APER, else
of HISTORY, else the header end; every non-excluded card is inserted at
that fixed index, one after another, exactly as the source loop does. -/
def insertSipCards (fhdr siphdr : Header) : Header :=
  let wind :=
    match fhdr.findIdx? (fun c => c.key == "PA_APER") with
    | some w => w
    | none =>
      match fhdr.findIdx? (fun c => c.key == "HISTORY") with
      | some w => w
      | none => fhdr.length
  (siphdr.filter (fun c => !(excludedKeys.contains c.key))).foldl
    (fun acc k => insAt wind k acc) fhdr

/-- Replace the element at an index, leaving the list unchanged when the
index is out of range. -/
def modifyAt (l : List α) (i : Nat) (g : α → α) : List α :=
  match l, i with
  | [], _ => []
  | a :: t, 0 => g a :: t
  | a :: t, n + 1 => a :: modifyAt t n g

/-- Replace the header of the extension (name, ver) in place. -/
def setExtHeader (d : Dataset) (name : String) (ver : Nat) (hdr : Header) :
    Dataset :=
  match d.hdus.findIdx? (fun h =>
      hfind h.header "EXTNAME" == some (.s name) &&
      hfind h.header "EXTVER" == some (.n ver)) with
  | some i => ⟨modifyAt d.hdus i (fun h => { h with header := hdr })⟩
  | none => d

/-- The installation body of Headerlet.apply, lines 448-530, reached only
after both preconditions pass: initialize the ledger when needed, build the
rollback headerlet of the current state, strip the destination, copy the
reference files and every SIPWCS header, append the auxiliary array
extensions, record the ledger rows, then attach the rollback and the
applied headerlet. -/
def applyInstall (self : Headerlet) (dest : Dataset) (createheaderlet : Bool)
    (hdrname : Option String) (attach createsummary : Bool) (now : String) :
    Except PyErr Dataset := do
  let fobj := if createsummary && !(hasExtName dest "WCSCORR") then
      init_wcscorr dest
    else dest
  let numhlt := countExtn fobj "HDRLET"
  let (origHdu?, numhlt2) ←
    if createheaderlet then do
      let hn ← match hdrname with
        | some s => if s == "" then defaultOrigName fobj else pure s
        | none => defaultOrigName fobj
      let origHlt ← createHeaderlet fobj (some hn) none now
      let ohdu ← fromheaderlet origHlt false
      pure (some (hhSetExtVer ohdu (numhlt + 1)), numhlt + 1)
    else pure (none, numhlt)
  let fobj2 ← delDestWCS fobj
  let selfH0 ← req self.hdus.head? .indexError
  let destH0 ← req fobj2.hdus.head? .indexError
  let fobj3 : Dataset :=
    ⟨{ destH0 with header := (updateRefFiles selfH0.header destH0.header).1 } ::
      fobj2.hdus.tail⟩
  let numsip := countExtn ⟨self.hdus⟩ "SIPWCS"
  let fobj4 ← exFoldl (fun acc idx => do
      let sciHdu ← req (lookupExt acc "SCI" idx) (.extKeyError "SCI" idx)
      let sip ← req (lookupExt ⟨self.hdus⟩ "SIPWCS" idx) (.extKeyError "SIPWCS" idx)
      pure (setExtHeader acc "SCI" idx (insertSipCards sciHdu.header sip.header)))
    fobj3 (List.range' 1 numsip)
  let nw := countExtn ⟨self.hdus⟩ "WCSDVARR"
  let nd := countExtn ⟨self.hdus⟩ "D2IMARR"
  let fobj5 ← exFoldl (fun acc i => do
      let h ← req (lookupExt ⟨self.hdus⟩ "WCSDVARR" i) (.extKeyError "WCSDVARR" i)
      pure (Dataset.mk (acc.hdus ++ [h]))) fobj4 (List.range' 1 nw)
  let fobj6 ← exFoldl (fun acc i => do
      let h ← req (lookupExt ⟨self.hdus⟩ "D2IMARR" i) (.extKeyError "D2IMARR" i)
      pure (Dataset.mk (acc.hdus ++ [h]))) fobj5 (List.range' 1 nd)
  let fobj7 := if createsummary then update_wcscorr fobj6 self else fobj6
  let fobj8 :=
    match origHdu? with
    | some oh => if createheaderlet then Dataset.mk (fobj7.hdus ++ [hhToHDU oh])
                 else fobj7
    | none => fobj7
  if attach then do
    let nh ← fromheaderlet self false
    pure (Dataset.mk (fobj8.hdus ++ [hhToHDU (hhSetExtVer nh (numhlt2 + 1))]))
  else pure fobj8

/-- Headerlet.apply (lines 424-535) for a destination passed as a file
name: the structural self-check runs first; when the identity check fails,
the two diagnostic lines interpolate the local variable fobj, which is
assigned only on the success branch, so Python raises UnboundLocalError
for fobj before any diagnostic is emitted and before any write. -/
def applyHl (self : Headerlet) (destName : String) (dest : Dataset)
    (createheaderlet : Bool) (hdrname : Option String)
    (attach createsummary : Bool) (now : String) : Except PyErr Dataset := do
  let _ ← hverify self
  if verify_dest self destName dest then
    applyInstall self dest createheaderlet hdrname attach createsummary now
  else
    throw (.nameError "fobj")

/-- A bare HDU with the given header and coordinate solution. -/
def mkHDU (hdr : Header) (w : WCSData) : HDU :=
  { header := hdr, data := [], wcs := w, wcsCards := [], altKeys := [],
    altCards := [] }

/-- A primary HDU carrying only a ROOTNAME. -/
def primaryR : HDU := mkHDU [⟨"ROOTNAME", .s "r"⟩] emptyWCS

/-- A minimal science-extension header with the given version. -/
def sciHdr (v : Nat) : Header := [⟨"EXTNAME", .s "SCI"⟩, ⟨"EXTVER", .n v⟩]

/-- A small baseline coordinate solution shared by the comparison
fixtures. -/
def baseW : WCSData :=
  { crval := [1], crpix := [1], cd := [1], ctype := ["T"], sip := none,
    cpdis1 := none, cpdis2 := none, det2im1 := none, det2im2 := none,
    vafactor := 1 }

/-- A single-science-extension dataset holding the given solution. -/
def mkCmpDS (w : WCSData) : Dataset :=
  ⟨[primaryR, mkHDU (sciHdr 1) w]⟩

/-- C2 fixture: one science extension. -/
def cexA2 : Dataset := mkCmpDS baseW

/-- C2 fixture: a dataset with a primary HDU only (zero science
extensions). -/
def cexB2 : Dataset := ⟨[primaryR]⟩

/-- C2 fixture with zero science extensions on both sides. -/
def cexZ2 : Dataset := ⟨[mkHDU [⟨"ROOTNAME", .s "z"⟩] emptyWCS]⟩

/-- C3 family: vary the axis-1 lookup-table distortion array. -/
def dsCp (x : Rat) : Dataset := mkCmpDS { baseW with cpdis1 := some [x] }

/-- C3 family: vary the axis-1 detector-to-image correction array. -/
def dsD2 (x : Rat) : Dataset := mkCmpDS { baseW with det2im1 := some [x] }

/-- C3 family: vary the velocity-aberration factor. -/
def dsVa (x : Rat) : Dataset := mkCmpDS { baseW with vafactor := x }

/-- C3 family: vary one forward SIP coefficient. -/
def dsSip (x : Rat) : Dataset := mkCmpDS { baseW with sip := some ([x], [1]) }

/-- C3 family: vary the reference point. -/
def dsCrv (x : Rat) : Dataset := mkCmpDS { baseW with crval := [x] }

/-- C4 fixture: a source whose primary header carries DESTIM but no
ROOTNAME. -/
def dsDestimOnly : Dataset :=
  ⟨[mkHDU [⟨"DESTIM", .s "d"⟩] emptyWCS, mkHDU (sciHdr 1) baseW]⟩

/-- A minimal buildable source: ROOTNAME plus one science extension. -/
def dsSimple : Dataset := ⟨[primaryR, mkHDU (sciHdr 1) baseW]⟩

/-- C6 fixture family: optional D2IMFILE on the primary header, optional
D2IMEXT and AXISCORR on the single science extension. -/
def dsD2im (df de ax : Bool) : Dataset :=
  ⟨[mkHDU ([⟨"ROOTNAME", .s "r"⟩] ++
      (if df then [⟨"D2IMFILE", .s "dfile"⟩] else [])) emptyWCS,
    mkHDU (sciHdr 1 ++
      (if de then [⟨"D2IMEXT", .s "dext"⟩] else []) ++
      (if ax then [⟨"AXISCORR", .n 1⟩] else [])) baseW]⟩

/-- C7 fixture: the source stores its D2IMARR extension before its WCSDVARR
extension. -/
def dsInterleaved : Dataset :=
  ⟨[primaryR, mkHDU (sciHdr 1) baseW,
    mkHDU [⟨"EXTNAME", .s "D2IMARR"⟩, ⟨"EXTVER", .n 1⟩] emptyWCS,
    mkHDU [⟨"EXTNAME", .s "WCSDVARR"⟩, ⟨"EXTVER", .n 1⟩] emptyWCS]⟩

/-- The auxiliary-array extension names of an HDU list, in stored order. -/
def auxNames (hdus : List HDU) : List String :=
  hdus.filterMap (fun h =>
    match hfind h.header "EXTNAME" with
    | some (.s nm) => if nm = "WCSDVARR" ∨ nm = "D2IMARR" then some nm else none
    | _ => none)

/-- The auxiliary-array extension names of a build result; empty on error. -/
def auxNamesOf (r : Except PyErr Headerlet) : List String :=
  match r with
  | .ok hl => auxNames hl.hdus
  | .error _ => []

/-- Whether any SIPWCS extension of a build result carries a card with the
given keyword; false on error. -/
def builtSipwcsHasKey (r : Except PyErr Headerlet) (k : String) : Bool :=
  match r with
  | .ok hl => hl.hdus.any (fun h =>
      hfind h.header "EXTNAME" == some (.s "SIPWCS") &&
      (hfindCard h.header k).isSome)
  | .error _ => false

/-- A valid headerlet primary HDU for the apply fixtures. -/
def hlPrimary : HDU :=
  mkHDU [⟨"DESTIM", .s "abc"⟩, ⟨"HDRNAME", .s "hlet1"⟩,
         ⟨"STWCSVER", .s "1.0"⟩] emptyWCS

/-- The HDU list of a small well-formed headerlet. -/
def hlContent : List HDU :=
  [hlPrimary, mkHDU [⟨"EXTNAME", .s "SIPWCS"⟩, ⟨"EXTVER", .n 1⟩] emptyWCS]

/-- C1 fixture: a headerlet object whose DESTIM is abc. -/
def cexH1 : Headerlet :=
  ⟨hlContent, .s "hlet1", .s "1.0", .s "abc", .s "", .s "", .s "", .n 1⟩

/-- C1 fixture: a destination whose ROOTNAME is r. -/
def cexD1 : Dataset := ⟨[primaryR]⟩

/-- C9 fixture: an embedded-archive extension with an empty archive. -/
def hhEmpty : HeaderletHDU := ⟨[⟨"HDRNAME", .s "h"⟩], []⟩

/-- C9 fixture: two members, the second carrying the expected name. -/
def hhMultiNamed : HeaderletHDU :=
  ⟨[⟨"HDRNAME", .s "hlet1"⟩],
   [⟨"other.fits", []⟩, ⟨"hlet1_hdr.fits", hlContent⟩]⟩

/-- C9 fixture: two members, neither carrying the expected name. -/
def hhMultiAnon : HeaderletHDU :=
  ⟨[⟨"HDRNAME", .s "hlet1"⟩],
   [⟨"a.fits", hlContent⟩, ⟨"b.fits", []⟩]⟩

/-- C10 fixture: extension 0 lacks HDRNAME. -/
def d10NoHdrname : Dataset := ⟨[mkHDU [⟨"DESTIM", .s "d"⟩] emptyWCS]⟩

/-- C10 fixture: extension 0 lacks DESTIM. -/
def d10NoDestim : Dataset := ⟨[mkHDU [⟨"HDRNAME", .s "h"⟩] emptyWCS]⟩

/-- C10 fixture: HDRNAME present but blank. -/
def d10Blank : Dataset :=
  ⟨[mkHDU [⟨"DESTIM", .s "d"⟩, ⟨"HDRNAME", .s " "⟩, ⟨"STWCSVER", .s "1"⟩] emptyWCS,
    mkHDU [] emptyWCS]⟩

instance : Inhabited Headerlet :=
  ⟨⟨[], .s "", .s "", .s "", .s "", .s "", .s "", .n 1⟩⟩

/-- The build result on the interleaved-auxiliary fixture. -/
def builtInterleaved : Headerlet :=
  (createHeaderlet dsInterleaved (some "n") none "today").toOption.getD default

/-! ## Helper lemmas -/

/-- num over den reconstructs the rational. -/
theorem num_eq_mul_den (q : Rat) : (q.num : ℚ) = q * (q.den : ℚ) := by
  have hd : ((q.den : ℚ)) ≠ 0 := Nat.cast_ne_zero.mpr q.den_nz
  have h := Rat.num_div_den q
  rw [div_eq_iff hd] at h
  exact h

/-- The integer cross-multiplied tolerance check agrees with the numpy
allclose bound. -/
theorem tolOk_iff (a b rtol atol : Rat) :
    tolOk a b rtol atol = true ↔ |a - b| ≤ atol + rtol * |b| := by
  have hA : (0:ℚ) < (a.den : ℚ) := by exact_mod_cast a.pos
  have hB : (0:ℚ) < (b.den : ℚ) := by exact_mod_cast b.pos
  have hR : (0:ℚ) < (rtol.den : ℚ) := by exact_mod_cast rtol.pos
  have hT : (0:ℚ) < (atol.den : ℚ) := by exact_mod_cast atol.pos
  have hK : (0:ℚ) < ((atol.den : ℚ) * ((rtol.den : ℚ) * (b.den : ℚ))) * ((a.den : ℚ) * (b.den : ℚ)) :=
    mul_pos (mul_pos hT (mul_pos hR hB)) (mul_pos hA hB)
  unfold tolOk
  simp only [decide_eq_true_eq]
  rw [← Int.cast_le (R := ℚ)]
  push_cast [Int.cast_natAbs]
  rw [num_eq_mul_den a, num_eq_mul_den b, num_eq_mul_den rtol, num_eq_mul_den atol]
  rw [show a * (a.den:ℚ) * (b.den:ℚ) - b * (b.den:ℚ) * (a.den:ℚ)
        = (a - b) * ((a.den:ℚ) * (b.den:ℚ)) from by ring]
  rw [abs_mul, abs_of_pos (mul_pos hA hB)]
  rw [show |b * (b.den:ℚ)| = |b| * (b.den:ℚ) from by rw [abs_mul, abs_of_pos hB]]
  rw [show |a - b| * ((a.den:ℚ) * (b.den:ℚ)) * ((atol.den:ℚ) * ((rtol.den:ℚ) * (b.den:ℚ)))
        = |a - b| * (((atol.den:ℚ) * ((rtol.den:ℚ) * (b.den:ℚ))) * ((a.den:ℚ) * (b.den:ℚ))) from by ring]
  rw [show (atol * (atol.den:ℚ) * ((rtol.den:ℚ) * (b.den:ℚ)) + rtol * (rtol.den:ℚ) * (|b| * (b.den:ℚ) * (atol.den:ℚ))) * ((a.den:ℚ) * (b.den:ℚ))
        = (atol + rtol * |b|) * (((atol.den:ℚ) * ((rtol.den:ℚ) * (b.den:ℚ))) * ((a.den:ℚ) * (b.den:ℚ))) from by ring]
  exact mul_le_mul_right hK

/-- A false accumulator stays false through the whole comparison loop when
every lookup it performs succeeds. -/
theorem exFoldl_cmpStep_false (f1 f2 : Dataset) (n1 n2 : String) (l : List Nat)
    (hl : ∀ i ∈ l, (∃ w, getWCS f1 n1 i = .ok w) ∧ (∃ w, getWCS f2 n2 i = .ok w)) :
    exFoldl (cmpStep f1 f2 n1 n2) false l = .ok false := by
  induction l with
  | nil => rfl
  | cons a t ih =>
    obtain ⟨⟨w1, hw1⟩, w2, hw2⟩ := hl a (by simp)
    have hstep : cmpStep f1 f2 n1 n2 false a = .ok false := by
      unfold cmpStep
      rw [hw1, hw2]
      rfl
    show (cmpStep f1 f2 n1 n2 false a >>= fun b2 => exFoldl (cmpStep f1 f2 n1 n2) b2 t) = .ok false
    rw [hstep]
    exact ih (fun i hi => hl i (by simp [hi]))

/-! ## C1 -/

/-- C1 (code bug): applying a headerlet whose DESTIM is abc to a
destination file xyz.fits whose ROOTNAME is r performs no mutation, but
instead of emitting the IdentityMismatch diagnostic the source interpolates
the local variable fobj, which is never assigned on this branch, so the
call raises UnboundLocalError for fobj. -/
theorem c1_identity_gate :
    applyHl cexH1 "xyz.fits" cexD1 true none true true "2026-01-01" =
      .error (.nameError "fobj") := by decide

/-! ## C2 -/

/-- C2 counterexample: the first file has one science extension and the
second has zero (with root identities present and equal), so the claim
requires the comparison to return false; instead the per-extension loop
looks up the missing extension of the second file and the lookup error
propagates. -/
theorem c2_counterexample :
    isWCSIdentical cexA2 cexB2 = .error (.extKeyError "SIPWCS" 1) ∧
    isWCSIdentical cexA2 cexB2 ≠ .ok false := by decide

/-- C2 amended: the comparison returns false (accumulating, never
short-circuiting) whenever either science count is zero or the counts
differ, provided every extension the loop reads, extensions 1 up to the
first file's count on both sides, is actually present; when the first
file's count exceeds the second's the loop instead fails with the lookup
error, as the counterexample shows. -/
theorem c2_amended (f1 f2 : Dataset) (r1 r2 : FV)
    (h1 : getRootname f1 = .ok r1) (h2 : getRootname f2 = .ok r2)
    (hl : ∀ i ∈ List.range' 1 (numsciOf f1),
      (∃ w, getWCS f1 (extnameOf f1) i = .ok w) ∧
      (∃ w, getWCS f2 (extnameOf f2) i = .ok w))
    (hc : numsciOf f1 = 0 ∨ numsciOf f2 = 0 ∨ numsciOf f1 ≠ numsciOf f2) :
    isWCSIdentical f1 f2 = .ok false := by
  unfold isWCSIdentical
  have hco : (!(numsciOf f1 == 0 || numsciOf f2 == 0 ||
      numsciOf f1 != numsciOf f2)) = false := by
    rcases hc with h | h | h <;> simp [h]
  rw [h1]
  show (getRootname f2 >>= fun r2v =>
      exFoldl (cmpStep f1 f2 (extnameOf f1) (extnameOf f2))
        ((!(numsciOf f1 == 0 || numsciOf f2 == 0 || numsciOf f1 != numsciOf f2)) && decide (r1 = r2v))
        (List.range' 1 (numsciOf f1))) = .ok false
  rw [h2]
  show exFoldl (cmpStep f1 f2 (extnameOf f1) (extnameOf f2))
      ((!(numsciOf f1 == 0 || numsciOf f2 == 0 || numsciOf f1 != numsciOf f2)) && decide (r1 = r2))
      (List.range' 1 (numsciOf f1)) = .ok false
  rw [hco]
  simp only [Bool.false_and]
  exact exFoldl_cmpStep_false f1 f2 _ _ _ hl

/-- C2 witness: two datasets with zero science extensions each and equal
root identities compare to false. -/
theorem c2_amended_witness : isWCSIdentical cexZ2 cexZ2 = .ok false :=
  c2_amended cexZ2 cexZ2 (.s "z") (.s "z") rfl rfl
    (by
      intro i hi
      have he : List.range' 1 (numsciOf cexZ2) = [] := rfl
      rw [he] at hi
      exact absurd hi (List.not_mem_nil i)) (Or.inl rfl)

/-! ## C3 -/

/-- Comparing two single-science-extension fixtures reduces to the
per-extension criteria; counts and root identities agree by
construction. -/
theorem cmp_single (w1 w2 : WCSData) :
    isWCSIdentical (mkCmpDS w1) (mkCmpDS w2) = .ok (extCompare w1 w2) := rfl

/-- The trivial tolerance check of two equal values, used to discharge the
constant conjuncts of the fixture families. -/
theorem tolOk_one : tolOk 1 1 rtol7 atol8 = true := by decide

/-- On the lookup-table fixture family every criterion except the axis-1
lookup-table array is trivially satisfied, leaving exactly the default
tolerance check. -/
theorem extCompare_cp (x y : Rat) :
    extCompare { baseW with cpdis1 := some [x] } { baseW with cpdis1 := some [y] }
      = tolOk x y rtol5 atol8 := by
  cases h : tolOk x y rtol5 atol8 <;>
    simp [extCompare, allclose, optOk, baseW, h, tolOk_one]

/-- Likewise for the axis-1 detector-to-image array. -/
theorem extCompare_d2 (x y : Rat) :
    extCompare { baseW with det2im1 := some [x] } { baseW with det2im1 := some [y] }
      = tolOk x y rtol5 atol8 := by
  cases h : tolOk x y rtol5 atol8 <;>
    simp [extCompare, allclose, optOk, baseW, h, tolOk_one]

/-- Likewise for one SIP coefficient, at the explicit 1e-7 tolerance. -/
theorem extCompare_sip (x y : Rat) :
    extCompare { baseW with sip := some ([x], [1]) } { baseW with sip := some ([y], [1]) }
      = tolOk x y rtol7 atol8 := by
  cases h : tolOk x y rtol7 atol8 <;>
    simp [extCompare, allclose, optOk, baseW, h, tolOk_one]

/-- Likewise for the reference point, at the explicit 1e-7 tolerance. -/
theorem extCompare_crv (x y : Rat) :
    extCompare { baseW with crval := [x] } { baseW with crval := [y] }
      = tolOk x y rtol7 atol8 := by
  cases h : tolOk x y rtol7 atol8 <;>
    simp [extCompare, allclose, optOk, baseW, h, tolOk_one]

/-- The velocity-aberration factor is compared by exact equality. -/
theorem extCompare_va (x y : Rat) :
    extCompare { baseW with vafactor := x } { baseW with vafactor := y }
      = decide (x = y) := by
  cases h : decide (x = y) <;>
    simp [extCompare, allclose, optOk, baseW, h, tolOk_one]

/-- C3 counterexample: two datasets whose axis-1 lookup-table arrays differ
(by 1e-9) compare as identical, because the code judges lookup-table data
with numpy default tolerances rather than exact equality. -/
theorem c3_counterexample :
    some [(0 : Rat)] ≠ some [mkRat 1 1000000000] ∧
    isWCSIdentical (dsCp 0) (dsCp (mkRat 1 1000000000)) = .ok true :=
  ⟨by decide, by decide⟩

/-- C3 amended: lookup-table and detector-to-image array data are judged by
approximate equality at numpy default tolerances (relative 1e-5, absolute
1e-8), not exact equality; the velocity-aberration factor is exact; the
reference point (and the other linear terms, which share the same call) and
the polynomial coefficients are approximate at relative tolerance 1e-7 with
the default absolute tolerance 1e-8. -/
theorem c3_amended (x y : Rat) :
    (isWCSIdentical (dsCp x) (dsCp y) = .ok true ↔ |x - y| ≤ atol8 + rtol5 * |y|) ∧
    (isWCSIdentical (dsD2 x) (dsD2 y) = .ok true ↔ |x - y| ≤ atol8 + rtol5 * |y|) ∧
    (isWCSIdentical (dsSip x) (dsSip y) = .ok true ↔ |x - y| ≤ atol8 + rtol7 * |y|) ∧
    (isWCSIdentical (dsCrv x) (dsCrv y) = .ok true ↔ |x - y| ≤ atol8 + rtol7 * |y|) ∧
    (isWCSIdentical (dsVa x) (dsVa y) = .ok true ↔ x = y) := by
  refine ⟨?_, ?_, ?_, ?_, ?_⟩
  · rw [show dsCp x = mkCmpDS { baseW with cpdis1 := some [x] } from rfl,
        show dsCp y = mkCmpDS { baseW with cpdis1 := some [y] } from rfl,
        cmp_single, extCompare_cp]
    simp only [Except.ok.injEq]
    exact tolOk_iff x y rtol5 atol8
  · rw [show dsD2 x = mkCmpDS { baseW with det2im1 := some [x] } from rfl,
        show dsD2 y = mkCmpDS { baseW with det2im1 := some [y] } from rfl,
        cmp_single, extCompare_d2]
    simp only [Except.ok.injEq]
    exact tolOk_iff x y rtol5 atol8
  · rw [show dsSip x = mkCmpDS { baseW with sip := some ([x], [1]) } from rfl,
        show dsSip y = mkCmpDS { baseW with sip := some ([y], [1]) } from rfl,
        cmp_single, extCompare_sip]
    simp only [Except.ok.injEq]
    exact tolOk_iff x y rtol7 atol8
  · rw [show dsCrv x = mkCmpDS { baseW with crval := [x] } from rfl,
        show dsCrv y = mkCmpDS { baseW with crval := [y] } from rfl,
        cmp_single, extCompare_crv]
    simp only [Except.ok.injEq]
    exact tolOk_iff x y rtol7 atol8
  · rw [show dsVa x = mkCmpDS { baseW with vafactor := x } from rfl,
        show dsVa y = mkCmpDS { baseW with vafactor := y } from rfl,
        cmp_single, extCompare_va]
    simp only [Except.ok.injEq]
    exact decide_eq_true_iff

/-! ## Error classification of the builder, shared by C4 and C5 -/

/-- Bind of a successful Except computation. -/
theorem bind_ok (a : α) (f : α → Except PyErr β) :
    (Except.ok a >>= f : Except PyErr β) = f a := rfl

/-- Bind of a failed Except computation. -/
theorem bind_err (e : PyErr) (f : α → Except PyErr β) :
    ((Except.error e : Except PyErr α) >>= f) = .error e := rfl

/-- pure of the Except monad. -/
theorem pure_ok (a : α) : (pure a : Except PyErr α) = .ok a := rfl

/-- Bind of a raising lookup that succeeds. -/
theorem req_bind_some {o : Option α} {a : α} (hyp : o = some a) (e : PyErr)
    (f : α → Except PyErr β) : (req o e >>= f) = f a := by
  rw [hyp]; rfl

/-- Bind of a raising lookup that fails. -/
theorem req_bind_none {o : Option α} (hyp : o = none) (e : PyErr)
    (f : α → Except PyErr β) : (req o e >>= f) = .error e := by
  rw [hyp]; rfl

/-- A raising lookup reports exactly its designated error. -/
theorem req_error {o : Option α} {err e : PyErr} (h : req o err = .error e) :
    e = err := by
  cases o with
  | some a => simp [req] at h
  | none => simp only [req, Except.error.injEq] at h; exact h.symm

/-- An error of the explicit mapM comes from one of the elements. -/
theorem exMapM_error {g : α → Except PyErr β} {l : List α} {e : PyErr}
    (h : exMapM g l = .error e) : ∃ a ∈ l, g a = .error e := by
  induction l with
  | nil => simp [exMapM] at h
  | cons a t ih =>
    rw [exMapM] at h
    cases hga : g a with
    | error e2 =>
      rw [hga, bind_err] at h
      exact ⟨a, by simp, by rw [hga, (Except.error.injEq _ _).mp h]⟩
    | ok b =>
      rw [hga, bind_ok] at h
      cases hrest : exMapM g t with
      | error e2 =>
        rw [hrest, bind_err] at h
        obtain ⟨x, hx, hgx⟩ := ih (by rw [hrest, (Except.error.injEq _ _).mp h])
        exact ⟨x, by simp [hx], hgx⟩
      | ok bs => rw [hrest, bind_ok] at h; simp [pure_ok] at h

/-- The only error of the detector-to-image copy block is the missing
AXISCORR companion. -/
theorem d2imCards_error {fhdr : Header} {e : PyErr}
    (h : d2imCards fhdr = .error e) : e = .keyError "AXISCORR" := by
  unfold d2imCards at h
  cases hx : hfindCard fhdr "AXISCORR" with
  | some c => rw [hx] at h; simp at h
  | none => rw [hx] at h; exact ((Except.error.injEq _ _).mp h).symm

/-- The SIPWCS builder fails only on a missing science extension or a
missing AXISCORR companion. -/
theorem mkSipwcsHDU_error {f : Dataset} {ak : List String} {np d2 : Bool}
    {ev : Nat} {err : PyErr} (h : mkSipwcsHDU f ak np d2 ev = .error err) :
    err = .extKeyError "SCI" ev ∨ err = .keyError "AXISCORR" := by
  unfold mkSipwcsHDU at h
  cases hs : lookupExt f "SCI" ev with
  | none =>
    simp only [req_bind_none hs] at h
    exact Or.inl ((Except.error.injEq _ _).mp h).symm
  | some sci =>
    simp only [req_bind_some hs] at h
    cases hd : d2 with
    | false => rw [hd] at h; simp [bind_ok, pure_ok] at h
    | true =>
      rw [hd] at h
      simp only [if_pos] at h
      cases hdc : d2imCards sci.header with
      | error e2 =>
        rw [hdc] at h
        simp only [Except.map, bind_err] at h
        exact Or.inr (((Except.error.injEq _ _).mp h) ▸ d2imCards_error hdc)
      | ok t =>
        rw [hdc] at h
        simp [Except.map, bind_ok, pure_ok] at h

/-- The Headerlet constructor fails only with an index error or a missing
HDRNAME or DESTIM keyword. -/
theorem headerletInit_error {d : Dataset} {e : PyErr}
    (h : Headerlet.init d = .error e) :
    e = .indexError ∨ e = .keyError "HDRNAME" ∨ e = .keyError "DESTIM" := by
  unfold Headerlet.init at h
  cases h0 : d.hdus.head? with
  | none =>
    simp only [req_bind_none h0] at h
    exact Or.inl ((Except.error.injEq _ _).mp h).symm
  | some hd =>
    simp only [req_bind_some h0] at h
    cases hn : hfind hd.header "HDRNAME" with
    | none =>
      simp only [req_bind_none hn] at h
      exact Or.inr (Or.inl ((Except.error.injEq _ _).mp h).symm)
    | some nv =>
      simp only [req_bind_some hn] at h
      cases hdm : hfind hd.header "DESTIM" with
      | none =>
        simp only [req_bind_none hdm] at h
        exact Or.inr (Or.inr ((Except.error.injEq _ _).mp h).symm)
      | some dv =>
        simp only [req_bind_some hdm] at h
        cases h1 : d.hdus.get? 1 with
        | none =>
          simp only [req_bind_none h1] at h
          exact Or.inl ((Except.error.injEq _ _).mp h).symm
        | some e1 =>
          simp only [req_bind_some h1, pure_ok] at h
          simp at h

/-- After identity and name validation, no error of the remaining build can
be the missing-ROOTNAME KeyError or any ValueError. -/
theorem createHeaderletRest_error {f : Dataset} {h0 : HDU} {dv : FV}
    {hn now : String} {e : PyErr}
    (h : createHeaderletRest f h0 dv hn now = .error e) :
    e ≠ .keyError "ROOTNAME" ∧ ∀ s, e ≠ .valueError s := by
  unfold createHeaderletRest at h
  cases hs : lookupExt f "SCI" 1 with
  | none =>
    simp only [req_bind_none hs] at h
    have he := ((Except.error.injEq _ _).mp h).symm
    subst he
    exact ⟨(fun hx => by simp at hx), (fun s hx => by simp at hx)⟩
  | some sci1 =>
    simp only [req_bind_some hs] at h
    cases hscis : exMapM
        (mkSipwcsHDU f (usedAltKeys sci1) (buildPrimaryHeader h0 sci1 dv hn now).2.2.1
          (buildPrimaryHeader h0 sci1 dv hn now).2.2.2)
        (List.range' 1 (countExtn f "SCI")) with
    | error e2 =>
      rw [hscis, bind_err] at h
      have he : e2 = e := (Except.error.injEq _ _).mp h
      subst he
      obtain ⟨a, _, hga⟩ := exMapM_error hscis
      rcases mkSipwcsHDU_error hga with h1 | h1 <;> subst h1 <;>
        exact ⟨(fun hx => by simp at hx), (fun s hx => by simp at hx)⟩
    | ok scis =>
      rw [hscis, bind_ok] at h
      cases hwds : exMapM
          (fun w => req (lookupExt f "WCSDVARR" w) (.extKeyError "WCSDVARR" w))
          (List.range' 1 (countExtn f "WCSDVARR")) with
      | error e2 =>
        rw [hwds, bind_err] at h
        have he : e2 = e := (Except.error.injEq _ _).mp h
        subst he
        obtain ⟨a, _, hga⟩ := exMapM_error hwds
        have he2 := req_error hga
        subst he2
        exact ⟨(fun hx => by simp at hx), (fun s hx => by simp at hx)⟩
      | ok wds =>
        rw [hwds, bind_ok] at h
        cases hd2s : exMapM
            (fun w => req (lookupExt f "D2IMARR" w) (.extKeyError "D2IMARR" w))
            (List.range' 1 (countExtn f "D2IMARR")) with
        | error e2 =>
          rw [hd2s, bind_err] at h
          have he : e2 = e := (Except.error.injEq _ _).mp h
          subst he
          obtain ⟨a, _, hga⟩ := exMapM_error hd2s
          have he2 := req_error hga
          subst he2
          exact ⟨(fun hx => by simp at hx), (fun s hx => by simp at hx)⟩
        | ok d2s =>
          rw [hd2s, bind_ok] at h
          rcases headerletInit_error h with h1 | h1 | h1 <;> subst h1 <;>
            exact ⟨(fun hx => by simp at hx), (fun s hx => by simp at hx)⟩

/-- Bind of a pure Except value. -/
theorem pure_bind_ex (a : α) (f : α → Except PyErr β) :
    ((pure a : Except PyErr α) >>= f) = f a := rfl

/-! ## C4 -/

/-- C4 counterexample: a source whose primary header carries DESTIM but no
ROOTNAME, built with no explicit destination identity, fails with the
missing-ROOTNAME KeyError even though the dataset has the DESTIM fallback
root-identity keyword, contradicting the claimed if-and-only-if. -/
theorem c4_counterexample :
    createHeaderlet dsDestimOnly (some "n") none "today" =
      .error (.keyError "ROOTNAME") := by decide

/-- C4 amended: with no explicit destination identity, build fails with the
missing-identity KeyError exactly when the primary header lacks ROOTNAME;
the DESTIM keyword is never consulted.  When ROOTNAME is present the
identity resolves to it, and with an explicit identity the error cannot
occur at all. -/
theorem c4_amended (f : Dataset) (s dm now : String) (h0 : HDU)
    (hh : f.hdus.head? = some h0) :
    (createHeaderlet f (some s) none now = .error (.keyError "ROOTNAME") ↔
      hfind h0.header "ROOTNAME" = none) ∧
    (∀ v, hfind h0.header "ROOTNAME" = some v → resolveDestim h0 none = .ok v) ∧
    (createHeaderlet f (some s) (some dm) now ≠ .error (.keyError "ROOTNAME")) := by
  refine ⟨⟨?_, ?_⟩, ?_, ?_⟩
  · intro h
    cases hr : hfind h0.header "ROOTNAME" with
    | none => rfl
    | some v =>
      unfold createHeaderlet at h
      simp only [req_bind_some hh] at h
      rw [show resolveDestim h0 none = .ok v from by
            unfold resolveDestim; rw [hr]] at h
      rw [bind_ok, pure_bind_ex] at h
      exact absurd rfl ((createHeaderletRest_error h).1)
  · intro hr
    unfold createHeaderlet
    simp only [req_bind_some hh]
    rw [show resolveDestim h0 none = .error (.keyError "ROOTNAME") from by
          unfold resolveDestim; rw [hr]]
    rfl
  · intro v hv
    unfold resolveDestim
    rw [hv]
  · intro h
    unfold createHeaderlet at h
    simp only [req_bind_some hh] at h
    rw [show resolveDestim h0 (some dm) = .ok (.s dm) from rfl] at h
    rw [bind_ok, pure_bind_ex] at h
    exact absurd rfl ((createHeaderletRest_error h).1)

/-- C4 witness: on the DESTIM-only fixture the amended theorem yields both
the failure without an explicit identity and the impossibility of that
failure with one. -/
theorem c4_amended_witness :
    createHeaderlet dsDestimOnly (some "n") none "t" =
      .error (.keyError "ROOTNAME") ∧
    createHeaderlet dsDestimOnly (some "n") (some "x") "t" ≠
      .error (.keyError "ROOTNAME") :=
  ⟨(c4_amended dsDestimOnly "n" "x" "t" (mkHDU [⟨"DESTIM", .s "d"⟩] emptyWCS)
      rfl).1.mpr (by decide),
   (c4_amended dsDestimOnly "n" "x" "t" (mkHDU [⟨"DESTIM", .s "d"⟩] emptyWCS)
      rfl).2.2⟩

/-! ## C5 -/

/-- C5 counterexample: a name supplied as the empty string is accepted: the
build succeeds and stores the blank HDRNAME, because the source tests
`hdrname is None` rather than name truthiness. -/
theorem c5_counterexample :
    (createHeaderlet dsSimple (some "") none "t").toOption.map Headerlet.hdrname
      = some (.s "") := by decide

/-- C5 amended: once the destination identity resolves, build fails with
the MissingName ValueError exactly when the name argument is absent (None);
any supplied string, the empty string included, is never rejected with a
ValueError. -/
theorem c5_amended (f : Dataset) (destim : Option String) (now : String)
    (h0 : HDU) (v : FV)
    (hh : f.hdus.head? = some h0) (hres : resolveDestim h0 destim = .ok v) :
    (createHeaderlet f none destim now = .error (.valueError
      "Please provide a name for the headerlet, HDRNAME is a required parameter.")) ∧
    (∀ s e, createHeaderlet f (some s) destim now = .error e →
      ∀ msg, e ≠ .valueError msg) := by
  constructor
  · unfold createHeaderlet
    simp only [req_bind_some hh]
    rw [hres, bind_ok]
    rfl
  · intro s e he msg
    unfold createHeaderlet at he
    simp only [req_bind_some hh] at he
    rw [hres, bind_ok, pure_bind_ex] at he
    exact (createHeaderletRest_error he).2 msg

/-- C5 witness: the simple fixture fails with the MissingName ValueError
when no name is given. -/
theorem c5_amended_witness :
    createHeaderlet dsSimple none none "t" = .error (.valueError
      "Please provide a name for the headerlet, HDRNAME is a required parameter.") :=
  (c5_amended dsSimple none "t" primaryR (.s "r") rfl rfl).1

/-! ## C6 -/

/-- C6 counterexample: the primary header carries D2IMFILE while the
science extension has neither D2IMEXT nor AXISCORR; the claim requires both
keywords to be independently skipped, but build raises the AXISCORR
KeyError although no detector-to-image reference keyword is present on the
extension. -/
theorem c6_counterexample :
    createHeaderlet (dsD2im true false false) (some "n") none "t" =
      .error (.keyError "AXISCORR") := by decide

/-- C6 amended: the detector-to-image copy block runs only when the source
primary header carries D2IMFILE.  Within it, D2IMEXT is optional, but a
missing AXISCORR is fatal regardless of whether D2IMEXT is present; with
AXISCORR present the build succeeds.  When the primary lacks D2IMFILE the
block is skipped entirely: the build succeeds and no D2IMEXT card is copied
into any SIPWCS extension even when the science extension carries one. -/
theorem c6_amended : ∀ b c : Bool,
    (createHeaderlet (dsD2im true b false) (some "n") none "t" =
      .error (.keyError "AXISCORR")) ∧
    ((createHeaderlet (dsD2im true b true) (some "n") none "t").toOption.isSome
      = true) ∧
    ((createHeaderlet (dsD2im false b c) (some "n") none "t").toOption.isSome
      = true) ∧
    (builtSipwcsHasKey (createHeaderlet (dsD2im false b c) (some "n") none "t")
      "D2IMEXT" = false) := by decide

/-! ## C7 -/

/-- A successful raising lookup pins down the Option value. -/
theorem req_ok {o : Option α} {e : PyErr} {a : α} (h : req o e = .ok a) :
    o = some a := by
  cases o with
  | some b => simp only [req, Except.ok.injEq] at h; rw [h]
  | none => simp [req] at h

/-- A successful explicit mapM preserves the length. -/
theorem exMapM_ok_length {g : α → Except PyErr β} {l : List α} {ys : List β}
    (h : exMapM g l = .ok ys) : ys.length = l.length := by
  induction l generalizing ys with
  | nil =>
    simp only [exMapM, Except.ok.injEq] at h
    subst h
    rfl
  | cons a t ih =>
    rw [exMapM] at h
    cases hga : g a with
    | error e2 => rw [hga, bind_err] at h; cases h
    | ok b =>
      rw [hga, bind_ok] at h
      cases hrest : exMapM g t with
      | error e2 => rw [hrest, bind_err] at h; cases h
      | ok bs =>
        rw [hrest, bind_ok, pure_ok] at h
        rw [← (Except.ok.injEq _ _).mp h]
        simp [ih hrest]

/-- Elements of a successful explicit mapM are the images of the input
elements, position by position. -/
theorem exMapM_ok_get {g : α → Except PyErr β} {l : List α} {ys : List β}
    (h : exMapM g l = .ok ys) :
    ∀ (i : Nat) (a : α), l[i]? = some a → ∃ y, ys[i]? = some y ∧ g a = .ok y := by
  induction l generalizing ys with
  | nil => intro i a ha; simp at ha
  | cons a0 t ih =>
    rw [exMapM] at h
    cases hga : g a0 with
    | error e2 => rw [hga, bind_err] at h; cases h
    | ok b =>
      rw [hga, bind_ok] at h
      cases hrest : exMapM g t with
      | error e2 => rw [hrest, bind_err] at h; cases h
      | ok bs =>
        rw [hrest, bind_ok, pure_ok] at h
        rw [← (Except.ok.injEq _ _).mp h]
        intro i a ha
        cases i with
        | zero =>
          simp only [List.getElem?_cons_zero, Option.some.injEq] at ha
          exact ⟨b, by simp, ha ▸ hga⟩
        | succ j =>
          simp only [List.getElem?_cons_succ] at ha ⊢
          exact ih hrest j a ha


/-- Position lookup in a half-open range. -/
theorem range'_get (s n i : Nat) (h : i < n) :
    (List.range' s n)[i]? = some (s + i) := by
  induction n generalizing s i with
  | zero => omega
  | succ m ih =>
    cases i with
    | zero => simp [List.range']
    | succ j =>
      have hj : j < m := by omega
      simp only [List.range', List.getElem?_cons_succ]
      rw [ih (s + 1) j hj]
      congr 1
      omega

/-- A successfully built SIPWCS HDU's header starts with its EXTNAME and
EXTVER cards. -/
theorem mkSipwcsHDU_ok_header {f : Dataset} {ak : List String} {np d2 : Bool}
    {ev : Nat} {hd : HDU} (h : mkSipwcsHDU f ak np d2 ev = .ok hd) :
    ∃ t, hd.header = ⟨"EXTNAME", .s "SIPWCS"⟩ :: ⟨"EXTVER", .n ev⟩ :: t := by
  unfold mkSipwcsHDU at h
  cases hs : lookupExt f "SCI" ev with
  | none => simp only [req_bind_none hs] at h; cases h
  | some sci =>
    simp only [req_bind_some hs] at h
    cases hd2 : d2 with
    | false =>
      rw [hd2] at h
      simp only [Bool.false_eq_true, if_false, pure_bind_ex, pure_ok,
        bind_ok, Except.ok.injEq] at h
      rw [← h]
      cases hnp : np with
      | false =>
        simp only [hnp, Bool.false_eq_true, if_false, sipwcsBase]
        exact ⟨_, rfl⟩
      | true =>
        simp only [hnp, if_true, sipwcsBase, List.cons_append]
        exact ⟨_, rfl⟩
    | true =>
      rw [hd2] at h
      simp only [if_true] at h
      cases hdc : d2imCards sci.header with
      | error e2 => rw [hdc] at h; simp only [Except.map, bind_err] at h; cases h
      | ok tl =>
        rw [hdc] at h
        simp only [Except.map, bind_ok, pure_ok, Except.ok.injEq] at h
        rw [← h]
        cases hnp : np with
        | false =>
          simp only [hnp, Bool.false_eq_true, if_false, sipwcsBase,
            List.cons_append]
          exact ⟨_, rfl⟩
        | true =>
          simp only [hnp, if_true, sipwcsBase, List.cons_append,
            List.append_assoc]
          exact ⟨_, rfl⟩

/-- The Headerlet constructor does not change the HDU list. -/
theorem headerletInit_ok_hdus {d : Dataset} {hl : Headerlet}
    (h : Headerlet.init d = .ok hl) : hl.hdus = d.hdus := by
  unfold Headerlet.init at h
  cases h0 : d.hdus.head? with
  | none => simp only [req_bind_none h0] at h; cases h
  | some hd =>
    simp only [req_bind_some h0] at h
    cases hn : hfind hd.header "HDRNAME" with
    | none => simp only [req_bind_none hn] at h; cases h
    | some nv =>
      simp only [req_bind_some hn] at h
      cases hdm : hfind hd.header "DESTIM" with
      | none => simp only [req_bind_none hdm] at h; cases h
      | some dv =>
        simp only [req_bind_some hdm] at h
        cases h1 : d.hdus.get? 1 with
        | none => simp only [req_bind_none h1] at h; cases h
        | some e1 =>
          simp only [req_bind_some h1, pure_ok, Except.ok.injEq] at h
          rw [← h]

/-- C7 counterexample: a source storing its D2IMARR extension before its
WCSDVARR extension is rebuilt with the two swapped: the builder appends all
WCSDVARR extensions first, then all D2IMARR extensions, so their source
order is not preserved. -/
theorem c7_counterexample :
    auxNames dsInterleaved.hdus = ["D2IMARR", "WCSDVARR"] ∧
    auxNamesOf (createHeaderlet dsInterleaved (some "n") none "today") =
      ["WCSDVARR", "D2IMARR"] := by decide

/-- C7 amended: a built headerlet is extension 0, then one SIPWCS extension
per science extension versioned 1..N in source order, then every WCSDVARR
extension fetched by version 1..count, then every D2IMARR extension fetched
by version 1..count, each auxiliary HDU the unmodified source HDU; the
relative interleaving of the two auxiliary types in the source is not
preserved (they are grouped by type), and within a type the order is
version order rather than storage order. -/
theorem c7_amended (f : Dataset) (s now : String) (dm : Option String)
    (H : Headerlet) (h : createHeaderlet f (some s) dm now = .ok H) :
    H.hdus.length = 1 + countExtn f "SCI" + countExtn f "WCSDVARR" +
      countExtn f "D2IMARR" ∧
    (∀ e, 1 ≤ e → e ≤ countExtn f "SCI" →
      ∃ hd, H.hdus[e]? = some hd ∧
        hfind hd.header "EXTNAME" = some (.s "SIPWCS") ∧
        hfind hd.header "EXTVER" = some (.n e)) ∧
    (∀ w, 1 ≤ w → w ≤ countExtn f "WCSDVARR" →
      H.hdus[countExtn f "SCI" + w]? = lookupExt f "WCSDVARR" w) ∧
    (∀ k, 1 ≤ k → k ≤ countExtn f "D2IMARR" →
      H.hdus[countExtn f "SCI" + countExtn f "WCSDVARR" + k]? =
        lookupExt f "D2IMARR" k) := by
  unfold createHeaderlet at h
  cases hh : f.hdus.head? with
  | none => simp only [req_bind_none hh] at h; cases h
  | some h0 =>
    simp only [req_bind_some hh] at h
    cases hres : resolveDestim h0 dm with
    | error e2 => rw [hres, bind_err] at h; cases h
    | ok dv =>
      rw [hres, bind_ok, pure_bind_ex] at h
      unfold createHeaderletRest at h
      cases hs : lookupExt f "SCI" 1 with
      | none => simp only [req_bind_none hs] at h; cases h
      | some sci1 =>
        simp only [req_bind_some hs] at h
        cases hscis : exMapM
            (mkSipwcsHDU f (usedAltKeys sci1)
              (buildPrimaryHeader h0 sci1 dv s now).2.2.1
              (buildPrimaryHeader h0 sci1 dv s now).2.2.2)
            (List.range' 1 (countExtn f "SCI")) with
        | error e2 => rw [hscis, bind_err] at h; cases h
        | ok scis =>
          rw [hscis, bind_ok] at h
          cases hwds : exMapM
              (fun w => req (lookupExt f "WCSDVARR" w) (.extKeyError "WCSDVARR" w))
              (List.range' 1 (countExtn f "WCSDVARR")) with
          | error e2 => rw [hwds, bind_err] at h; cases h
          | ok wds =>
            rw [hwds, bind_ok] at h
            cases hd2s : exMapM
                (fun w => req (lookupExt f "D2IMARR" w) (.extKeyError "D2IMARR" w))
                (List.range' 1 (countExtn f "D2IMARR")) with
            | error e2 => rw [hd2s, bind_err] at h; cases h
            | ok d2s =>
              rw [hd2s, bind_ok] at h
              have hhd : H.hdus = _ :: (scis ++ (wds ++ d2s)) :=
                headerletInit_ok_hdus h
              have hls : scis.length = countExtn f "SCI" := by
                rw [exMapM_ok_length hscis, List.length_range']
              have hlw : wds.length = countExtn f "WCSDVARR" := by
                rw [exMapM_ok_length hwds, List.length_range']
              have hld : d2s.length = countExtn f "D2IMARR" := by
                rw [exMapM_ok_length hd2s, List.length_range']
              refine ⟨?_, ?_, ?_, ?_⟩
              · rw [hhd]
                simp only [List.length_cons, List.length_append, hls, hlw, hld]
                omega
              · intro e he1 he2
                have hre : (List.range' 1 (countExtn f "SCI"))[e - 1]? = some e := by
                  rw [range'_get 1 _ (e - 1) (by omega)]
                  congr 1
                  omega
                obtain ⟨y, hy, hgy⟩ := exMapM_ok_get hscis (e - 1) e hre
                obtain ⟨t, ht⟩ := mkSipwcsHDU_ok_header hgy
                refine ⟨y, ?_, ?_, ?_⟩
                · rw [hhd]
                  have hlt : e - 1 < scis.length := by omega
                  have hsucc : e = (e - 1) + 1 := by omega
                  rw [hsucc, List.getElem?_cons_succ, List.getElem?_append_left hlt]
                  exact hy
                · rw [ht]; rfl
                · rw [ht]; rfl
              · intro w hw1 hw2
                have hrw : (List.range' 1 (countExtn f "WCSDVARR"))[w - 1]? = some w := by
                  rw [range'_get 1 _ (w - 1) (by omega)]
                  congr 1
                  omega
                obtain ⟨y, hy, hgy⟩ := exMapM_ok_get hwds (w - 1) w hrw
                rw [hhd]
                have hidx : countExtn f "SCI" + w = (scis.length + (w - 1)) + 1 := by
                  omega
                rw [hidx, List.getElem?_cons_succ]
                rw [List.getElem?_append_right (by omega : scis.length ≤ scis.length + (w - 1))]
                have : scis.length + (w - 1) - scis.length = w - 1 := by omega
                rw [this]
                rw [List.getElem?_append_left (by omega : w - 1 < wds.length)]
                rw [hy, req_ok hgy]
              · intro k hk1 hk2
                have hrk : (List.range' 1 (countExtn f "D2IMARR"))[k - 1]? = some k := by
                  rw [range'_get 1 _ (k - 1) (by omega)]
                  congr 1
                  omega
                obtain ⟨y, hy, hgy⟩ := exMapM_ok_get hd2s (k - 1) k hrk
                rw [hhd]
                have hidx : countExtn f "SCI" + countExtn f "WCSDVARR" + k =
                    (scis.length + (wds.length + (k - 1))) + 1 := by
                  omega
                rw [hidx, List.getElem?_cons_succ]
                rw [List.getElem?_append_right (by omega : scis.length ≤ scis.length + (wds.length + (k - 1)))]
                have h2 : scis.length + (wds.length + (k - 1)) - scis.length =
                    wds.length + (k - 1) := by omega
                rw [h2]
                rw [List.getElem?_append_right (by omega : wds.length ≤ wds.length + (k - 1))]
                have h3 : wds.length + (k - 1) - wds.length = k - 1 := by omega
                rw [h3]
                rw [hy, req_ok hgy]

/-- C7 witness: the interleaved fixture builds to four extensions with the
WCSDVARR copy at position 2. -/
theorem c7_amended_witness :
    builtInterleaved.hdus.length = 1 + countExtn dsInterleaved "SCI" +
      countExtn dsInterleaved "WCSDVARR" + countExtn dsInterleaved "D2IMARR" ∧
    builtInterleaved.hdus[countExtn dsInterleaved "SCI" + 1]? =
      lookupExt dsInterleaved "WCSDVARR" 1 := by
  have h := c7_amended dsInterleaved "n" "today" none builtInterleaved (by decide)
  exact ⟨h.1, h.2.2.1 1 (by decide) (by decide)⟩

/-! ## C8 -/

/-- C8: the alternate-key list extracted for every science extension is the
enumeration of the dataset's first science extension with key O removed up
front (lines 193-196), so no SIPWCS block of createHeaderlet ever
serializes the alternate solution O: createHeaderletRest passes exactly
usedAltKeys to every per-extension extraction (mkSipwcsHDU). -/
theorem c8_no_O_key (sci : HDU) : "O" ∉ usedAltKeys sci := by
  unfold usedAltKeys wcskeys
  intro hmem
  have hnd : sci.altKeys.dedup.Nodup := List.nodup_dedup sci.altKeys
  exact ((List.Nodup.mem_erase_iff hnd).mp hmem).1 rfl

/-! ## C9 -/

/-- C9: decoding an embedded-archive extension fails with the EmptyArchive
ValueError on zero members; with more than one member it warns and
proceeds, deserializing the member named <HDRNAME>_hdr.fits when one exists
(the last such, as tarfile reports), else the first member with a second
warning. -/
theorem c9_decode :
    (∀ h : HeaderletHDU, h.members = [] →
      h.headerlet = .error (.valueError "The Headerlet contents are missing.")) ∧
    (∀ (h : HeaderletHDU) (nm : String) (m0 m1 : TarMember)
        (rest : List TarMember) (msel : TarMember) (hl : Headerlet),
      h.members = m0 :: m1 :: rest →
      hfind h.header "HDRNAME" = some (.s nm) →
      (m0 :: m1 :: rest).reverse.find? (fun m => m.name == nm ++ "_hdr.fits")
        = some msel →
      Headerlet.init ⟨msel.content⟩ = .ok hl →
      h.headerlet = .ok
        (["More than one file is contained in this only the headerlet file should be present."],
         hl)) ∧
    (∀ (h : HeaderletHDU) (nm : String) (m0 m1 : TarMember)
        (rest : List TarMember) (hl : Headerlet),
      h.members = m0 :: m1 :: rest →
      hfind h.header "HDRNAME" = some (.s nm) →
      (m0 :: m1 :: rest).reverse.find? (fun m => m.name == nm ++ "_hdr.fits")
        = none →
      Headerlet.init ⟨m0.content⟩ = .ok hl →
      h.headerlet = .ok
        (["More than one file is contained in this only the headerlet file should be present.",
          "The file " ++ (nm ++ "_hdr.fits") ++ " was missing from the HDU data.  Assuming that the first file in the data is headerlet file."],
         hl)) := by
  refine ⟨?_, ?_, ?_⟩
  · intro h hm
    unfold HeaderletHDU.headerlet
    rw [hm]
    rfl
  · intro h nm m0 m1 rest msel hl hm hn hsel hinit
    unfold HeaderletHDU.headerlet
    rw [hm]
    simp only [List.isEmpty_cons, req_bind_some hn, pure_bind_ex, hsel, hinit,
      bind_ok, pure_ok]
    simp [List.append_nil]
  · intro h nm m0 m1 rest hl hm hn hsel hinit
    unfold HeaderletHDU.headerlet
    rw [hm]
    simp only [List.isEmpty_cons, req_bind_some hn, pure_bind_ex, hsel, hinit,
      bind_ok, pure_ok]
    simp

/-- C9 witness: the three behaviors at concrete archives: the empty archive
raises, the two-member archive with a matching name selects it, and the
two-member archive without one falls back to the first member. -/
theorem c9_decode_witness :
    hhEmpty.headerlet = .error (.valueError "The Headerlet contents are missing.") ∧
    hhMultiNamed.headerlet = .ok
      (["More than one file is contained in this only the headerlet file should be present."],
       (Headerlet.init ⟨hlContent⟩).toOption.getD default) ∧
    hhMultiAnon.headerlet = .ok
      (["More than one file is contained in this only the headerlet file should be present.",
        "The file hlet1_hdr.fits was missing from the HDU data.  Assuming that the first file in the data is headerlet file."],
       (Headerlet.init ⟨hlContent⟩).toOption.getD default) := by
  refine ⟨c9_decode.1 hhEmpty rfl, ?_, ?_⟩
  · exact c9_decode.2.1 hhMultiNamed "hlet1" ⟨"other.fits", []⟩
      ⟨"hlet1_hdr.fits", hlContent⟩ [] ⟨"hlet1_hdr.fits", hlContent⟩
      ((Headerlet.init ⟨hlContent⟩).toOption.getD default) rfl rfl (by decide)
      (by decide)
  · exact c9_decode.2.2 hhMultiAnon "hlet1" ⟨"a.fits", hlContent⟩
      ⟨"b.fits", []⟩ []
      ((Headerlet.init ⟨hlContent⟩).toOption.getD default) rfl rfl (by decide)
      (by decide)

/-! ## C10 -/

/-- C10: constructing a Headerlet from a dataset whose extension-0 header
lacks HDRNAME fails with the HDRNAME KeyError (checked first), and lacking
DESTIM fails with the DESTIM KeyError, both before any apply logic runs; a
present-but-blank HDRNAME or DESTIM constructs successfully (given a second
extension for the VAFACTOR read) and is rejected only by the hverify
assertions at the start of apply. -/
theorem c10_construction (d : Dataset) (h0 : HDU)
    (hh : d.hdus.head? = some h0) :
    (hfind h0.header "HDRNAME" = none →
      Headerlet.init d = .error (.keyError "HDRNAME")) ∧
    (∀ v, hfind h0.header "HDRNAME" = some v →
      hfind h0.header "DESTIM" = none →
      Headerlet.init d = .error (.keyError "DESTIM")) ∧
    (∀ nm dm h1, hfind h0.header "HDRNAME" = some (.s nm) →
      hfind h0.header "DESTIM" = some (.s dm) →
      d.hdus.get? 1 = some h1 →
      (Headerlet.init d).toOption.isSome = true) ∧
    (∀ nm dm hl, hfind h0.header "HDRNAME" = some (.s nm) →
      hfind h0.header "DESTIM" = some (.s dm) →
      pyStripTruthy nm = false →
      Headerlet.init d = .ok hl →
      ∀ destName dest ch hn att cs now,
        applyHl hl destName dest ch hn att cs now = .error .assertionError) := by
  refine ⟨?_, ?_, ?_, ?_⟩
  · intro hn
    unfold Headerlet.init
    simp only [req_bind_some hh, req_bind_none hn]
  · intro v hn hdm
    unfold Headerlet.init
    simp only [req_bind_some hh, req_bind_some hn, req_bind_none hdm]
  · intro nm dm h1 hn hdm hh1
    unfold Headerlet.init
    simp only [req_bind_some hh, req_bind_some hn, req_bind_some hdm,
      req_bind_some hh1, pure_ok]
    rfl
  · intro nm dm hl hn hdm hblank hinit destName dest ch hnm att cs now
    have hhd : hl.hdus = d.hdus := headerletInit_ok_hdus hinit
    have hstr : ∀ v : String, assertTruthyStrip (some (.s v)) =
        if pyStripTruthy v then .ok () else .error .assertionError :=
      fun v => rfl
    have hver : hverify hl = .error .assertionError := by
      unfold hverify
      rw [hhd, hh]
      simp only [req, bind_ok]
      rw [hdm, hstr]
      cases hdmb : pyStripTruthy dm with
      | false => simp [bind_err]
      | true =>
        rw [if_pos rfl, bind_ok, hn, hstr, hblank, if_neg (by simp), bind_err]
    unfold applyHl
    rw [hver, bind_err]

/-- C10 witness: a dataset without HDRNAME fails construction with the
HDRNAME KeyError, one without DESTIM with the DESTIM KeyError, and one with
a blank HDRNAME constructs but is rejected by the self-check at the start
of apply. -/
theorem c10_construction_witness :
    Headerlet.init d10NoHdrname = .error (.keyError "HDRNAME") ∧
    Headerlet.init d10NoDestim = .error (.keyError "DESTIM") ∧
    (Headerlet.init d10Blank).toOption.isSome = true ∧
    applyHl ((Headerlet.init d10Blank).toOption.getD default) "x.fits" cexD1
      true none true true "t" = .error .assertionError := by
  refine ⟨?_, ?_, ?_, ?_⟩
  · exact (c10_construction d10NoHdrname _ rfl).1 rfl
  · exact (c10_construction d10NoDestim _ rfl).2.1 (.s "h") rfl rfl
  · exact (c10_construction d10Blank _ rfl).2.2.1 " " "d" (mkHDU [] emptyWCS)
      rfl rfl rfl
  · exact (c10_construction d10Blank _ rfl).2.2.2 " " "d" _ rfl rfl (by decide)
      (by decide) "x.fits" cexD1 true none true true "t"
